import Mathlib

/-!
Shallow embedding of `connect/proxy/proxy.go` — the built-in Connect sidecar
proxy's reconfiguration loop.

Modelling choices:
* `Proxy.Serve` runs a `select` loop over a config channel and a stop channel.
  We model one execution of the loop as a function over a list of incoming
  `Event`s (snapshot deliveries and the stop signal), processed in order.
* Goroutine spawns and log calls are recorded as a `ProxyAction` trace; the bodies
  of the spawned goroutines (the listener-serve thread and the stop-watcher
  thread of `startListener`, proxy.go lines 138-151) are modelled as separate
  functions of their inputs.
* External collaborators are inputs: `connect.NewService` is an oracle in
  `Env` (it can fail), and a `Listener` is an opaque value with a bind
  address.  `ParseConfigFile`, `NewDevServiceFromCertFiles` and the config
  watchers are external too; constructors take their successful results.
* The loop's local `cfg` variable in `Serve` is carried in the proxy state as
  `localCfg`; the struct field `p.service` is `service`.
-/

/-- An identity-service handle, as returned by `connect.NewService` or
`connect.NewDevServiceFromCertFiles`.  The collaborator is external to this
repository fragment; only its identity matters to the loop. -/
structure ConnectService where
  serviceID : String
  deriving DecidableEq, Repr

/-- An opaque runtime listener (`*Listener` in the source, whose
implementation is outside this fragment): a bindable endpoint.  Only
`BindAddr()` is observed by `proxy.go`. -/
structure Listener where
  bindAddr : String
  deriving DecidableEq, Repr

/-- One upstream configuration entry (`UpstreamConfig` in the repository's
config code, outside this fragment; fields modelled from the spec's data
model: destination identity, a local bind address and port, defaultable
timeout and protocol, and a lazily bound resolver). -/
structure UpstreamConfig where
  destinationName : String
  destinationType : String
  localBindAddress : String
  localBindPort : Int
  protocol : Option String := none
  connectTimeoutMs : Option Nat := none
  resolverBound : Bool := false
  deriving DecidableEq, Repr

/-- Modelled from the spec: `UpstreamConfig.applyDefaults` is not under
`src/`; the spec says defaults (timeouts, protocol) are applied exactly once
before a resolver or listener is derived.  Unset optional fields are filled;
the destination identity and `localBindPort` are untouched. -/
def UpstreamConfig.applyDefaults (uc : UpstreamConfig) : UpstreamConfig :=
  { uc with
    protocol := some (uc.protocol.getD "tcp")
    connectTimeoutMs := some (uc.connectTimeoutMs.getD 10000) }

/-- Modelled from the spec: `uc.String()` is the upstream's stable diffing
key, destination plus bind port. -/
def UpstreamConfig.identityString (uc : UpstreamConfig) : String :=
  uc.destinationType ++ ":" ++ uc.destinationName ++ ":" ++ toString uc.localBindPort

/-- The public (inbound) listener configuration (fields modelled from the
spec: a bind address with defaults applied once). -/
structure PublicListenerConfig where
  bindAddress : String
  bindPort : Int
  localServiceAddress : Option String := none
  deriving DecidableEq, Repr

/-- Modelled from the spec: `PublicListenerConfig.applyDefaults` is not under
`src/`; defaults are applied exactly once, filling unset fields and leaving
the bind address and port untouched. -/
def PublicListenerConfig.applyDefaults (pl : PublicListenerConfig) : PublicListenerConfig :=
  { pl with localServiceAddress := some (pl.localServiceAddress.getD "127.0.0.1") }

/-- A configuration snapshot (`*Config` delivered by the watcher). -/
structure Config where
  proxyID : String
  proxiedServiceID : String
  publicListener : PublicListenerConfig
  upstreams : List UpstreamConfig
  deriving DecidableEq, Repr

/-- `newCfg` after `newCfg.PublicListener.applyDefaults()` has run (the Go
code mutates the snapshot in place; with value semantics we derive the
updated snapshot). -/
def Config.withPublicDefaults (c : Config) : Config :=
  { c with publicListener := c.publicListener.applyDefaults }

/-- One event observed by `Serve`'s `select`: a snapshot from
`p.cfgWatcher.Watch()`, or the stop channel closing. -/
inductive Event where
  | snapshot (c : Config)
  | stop
  deriving DecidableEq, Repr

/-- Observable actions of the coordinator loop: log calls and goroutine
spawns, in program order. -/
inductive ProxyAction where
  | logDebugNewConfig
  | newServiceCall (id : String)
  | spawnReadyLogger
  | logListenerStarting (name : String) (l : Listener)
  | spawnServeThread (name : String) (l : Listener)
  | spawnStopWatcher (name : String) (l : Listener)
  | logUpstreamNoBindPort (ucName : String)
  | logUpstreamStartFailed (ucName : String) (err : String)
  deriving DecidableEq, Repr

/-- What a spawned listener thread can do once the stop signal fires. -/
inductive ListenerEffect where
  | closeListener (l : Listener)
  deriving DecidableEq, Repr

/-- Effects of `Proxy.Close` (proxy.go lines 158-163), in program order. -/
inductive CloseAction where
  | fireStopSignal
  | closeService (s : ConnectService)
  deriving DecidableEq, Repr

/-- The external world as seen by the loop: `connect.NewService(id, client)`
may fail. -/
structure Env where
  newService : String → Except String ConnectService

/-- The proxy state relevant to the loop: the `p.service` field and the local
`cfg` variable of `Serve` (`none` before the first snapshot is applied). -/
structure Proxy where
  proxyID : String
  service : Option ConnectService
  localCfg : Option Config
  deriving DecidableEq, Repr

/-- `New` (proxy.go lines 50-66): a proxy driven by the live agent config
watcher.  The client and watcher are external; the essential state is that no
identity service is set yet (`// Can't load service yet ...`). -/
def New (proxyID : String) : Proxy :=
  { proxyID := proxyID, service := none, localCfg := none }

/-- `NewFromConfigFile` (proxy.go lines 22-48): a development-mode proxy.
`ParseConfigFile` and `connect.NewDevServiceFromCertFiles` are external; on
their success the proxy starts with the dev certificate-file service set. -/
def NewFromConfigFile (cfg : Config) (devService : ConnectService) : Proxy :=
  { proxyID := cfg.proxyID, service := some devService, localCfg := none }

/-- Modelled from the spec: `NewPublicListener` lives in the repository's
listener code, not under `src/`; the spec treats a listener as an opaque
endpoint bound to the configured public address. -/
def NewPublicListener (_service : ConnectService) (cfg : PublicListenerConfig) : Listener :=
  { bindAddr := cfg.bindAddress ++ ":" ++ toString cfg.bindPort }

/-- Modelled from the spec: `NewUpstreamListener` lives in the repository's
listener code, not under `src/`; the listener binds the upstream's local
address and port. -/
def NewUpstreamListener (_service : Option ConnectService) (uc : UpstreamConfig) : Listener :=
  { bindAddr := uc.localBindAddress ++ ":" ++ toString uc.localBindPort }

/-- `Proxy.startListener` (proxy.go lines 136-154): logs the start, spawns
the serve thread and the stop-watcher thread, and returns `nil`.  The result
is the returned error value paired with the emitted actions. -/
def Proxy.startListener (_p : Proxy) (name : String) (l : Listener) :
    Option String × List ProxyAction :=
  (none,
   [ProxyAction.logListenerStarting name l,
    ProxyAction.spawnServeThread name l,
    ProxyAction.spawnStopWatcher name l])

/-- The body of the first goroutine of `startListener` (proxy.go lines
138-145), run when the listener's blocking `Serve()` returns: an error is
reported via logging only. -/
inductive ServeThreadLog where
  | stoppedWithError (name : String) (err : String)
  | stoppedNormally (name : String)
  deriving DecidableEq, Repr

/-- The serve goroutine of `startListener`: given the result of the spawned
`l.Serve()`, it only logs; nothing is surfaced to the caller. -/
def serveThreadBody (name : String) (serveErr : Option String) : List ServeThreadLog :=
  match serveErr with
  | some e => [ServeThreadLog.stoppedWithError name e]
  | none => [ServeThreadLog.stoppedNormally name]

/-- The body of the second goroutine of `startListener` (proxy.go lines
147-151): once `<-p.stopChan` fires it calls `l.Close()` once. -/
def stopWatcherBody (l : Listener) : List ListenerEffect :=
  [ListenerEffect.closeListener l]

/-- The listener closes performed when the stop signal fires: each spawned
stop watcher in the trace runs `stopWatcherBody` on its listener. -/
def closesOnStop : List ProxyAction → List ListenerEffect
  | [] => []
  | ProxyAction.spawnStopWatcher _ l :: rest => stopWatcherBody l ++ closesOnStop rest
  | _ :: rest => closesOnStop rest

/-- One iteration of the upstream loop body of `Serve` (proxy.go lines
110-126) on a single entry: apply defaults, bind the resolver, skip with a
log if `LocalBindPort < 1`, otherwise build the listener and start it,
logging any start error. -/
def processUpstream (p : Proxy) (uc0 : UpstreamConfig) : List ProxyAction :=
  let uc1 := uc0.applyDefaults
  let uc := { uc1 with resolverBound := true }
  if uc.localBindPort < 1 then
    [ProxyAction.logUpstreamNoBindPort uc.identityString]
  else
    let l := NewUpstreamListener p.service uc
    let r := p.startListener uc.identityString l
    r.2 ++
      (match r.1 with
       | some e => [ProxyAction.logUpstreamStartFailed uc.identityString e]
       | none => [])

/-- The upstream `for` loop of `Serve` over the whole snapshot list. -/
def processUpstreams (p : Proxy) : List UpstreamConfig → List ProxyAction
  | [] => []
  | uc :: rest => processUpstream p uc ++ processUpstreams p rest

/-- Result of processing one snapshot: continue looping with a new state, or
return an error from `Serve`. -/
inductive StepRes where
  | next (s : Proxy)
  | fatal (s : Proxy) (e : String)
  deriving DecidableEq, Repr

/-- The proxy state carried by a step result. -/
def StepRes.state : StepRes → Proxy
  | StepRes.next s => s
  | StepRes.fatal s _ => s

/-- The tail of the first-snapshot branch after the public-listener start
returns (proxy.go lines 99-127): a non-nil error is returned from `Serve`
at once; otherwise the upstream list is processed and the snapshot becomes
the loop's current config. -/
def Proxy.afterPublicStart (p : Proxy) (c : Config) (startErr : Option String) :
    StepRes × List ProxyAction :=
  match startErr with
  | some e => (StepRes.fatal p e, [])
  | none =>
    (StepRes.next { p with localCfg := some c }, processUpstreams p c.upstreams)

/-- The snapshot arm of `Serve`'s `select` (proxy.go lines 81-127): log the
debug line; on the first snapshot construct the identity service (fatal on
error), set `p.service`, spawn the readiness logger, apply public-listener
defaults and start the public listener; on every snapshot run the upstream
loop; finally store the snapshot as the current config. -/
def Proxy.applySnapshot (env : Env) (p : Proxy) (newCfg : Config) :
    StepRes × List ProxyAction :=
  match p.localCfg with
  | none =>
    match env.newService newCfg.proxiedServiceID with
    | Except.error e =>
      (StepRes.fatal p e,
       [ProxyAction.logDebugNewConfig, ProxyAction.newServiceCall newCfg.proxiedServiceID])
    | Except.ok service =>
      let p1 := { p with service := some service }
      let c1 := newCfg.withPublicDefaults
      let l := NewPublicListener service c1.publicListener
      let r := p1.startListener "public listener" l
      let post := p1.afterPublicStart c1 r.1
      (post.1,
       [ProxyAction.logDebugNewConfig, ProxyAction.newServiceCall newCfg.proxiedServiceID,
        ProxyAction.spawnReadyLogger] ++ r.2 ++ post.2)
  | some _ =>
    (StepRes.next { p with localCfg := some newCfg },
     ProxyAction.logDebugNewConfig :: processUpstreams p newCfg.upstreams)

/-- How one run of `Serve` ended: still blocked in the `select` (no more
events), returned `nil` after the stop signal, or returned an error. -/
inductive ServeOutcome where
  | blocked
  | retNil
  | retErr (e : String)
  deriving DecidableEq, Repr

/-- The observable result of running `Serve` on a sequence of events. -/
structure ServeResult where
  outcome : ServeOutcome
  state : Proxy
  acts : List ProxyAction
  deriving DecidableEq, Repr

/-- `Proxy.Serve` (proxy.go lines 69-134) over a list of delivered events:
the loop reads the next event; a snapshot is applied (errors terminate the
loop), the stop signal returns `nil` immediately. -/
def Proxy.Serve (env : Env) : Proxy → List Event → ServeResult
  | p, [] => ⟨ServeOutcome.blocked, p, []⟩
  | p, Event.stop :: _ => ⟨ServeOutcome.retNil, p, []⟩
  | p, Event.snapshot c :: rest =>
    match p.applySnapshot env c with
    | (StepRes.next p2, acts) =>
      let r := Proxy.Serve env p2 rest
      ⟨r.outcome, r.state, acts ++ r.acts⟩
    | (StepRes.fatal p2 e, acts) => ⟨ServeOutcome.retErr e, p2, acts⟩

/-- `Proxy.Close` (proxy.go lines 158-163): close the stop channel, then
close the identity service if one exists. -/
def Proxy.Close (p : Proxy) : List CloseAction :=
  CloseAction.fireStopSignal ::
    (match p.service with
     | some svc => [CloseAction.closeService svc]
     | none => [])

/-- True of the action that starts a listener-serve thread for `l`. -/
def isServeSpawn (l : Listener) : ProxyAction → Bool
  | ProxyAction.spawnServeThread _ l2 => decide (l2 = l)
  | _ => false

/-- True of the action that spawns the stop watcher for `l`. -/
def isWatcherSpawn (l : Listener) : ProxyAction → Bool
  | ProxyAction.spawnStopWatcher _ l2 => decide (l2 = l)
  | _ => false

/-- True of the effect that closes `l`. -/
def isCloseOf (l : Listener) : ListenerEffect → Bool
  | ListenerEffect.closeListener l2 => decide (l2 = l)

/-- True of any listener-start attempt (a spawned serve thread). -/
def isStartAttempt : ProxyAction → Bool
  | ProxyAction.spawnServeThread _ _ => true
  | _ => false

/-- True of the stop-signal firing. -/
def isFireStop : CloseAction → Bool
  | CloseAction.fireStopSignal => true
  | _ => false

/-! ## Concrete fixtures -/

/-- A sample upstream with a usable bind port. -/
def ucValid : UpstreamConfig :=
  { destinationName := "db", destinationType := "service",
    localBindAddress := "127.0.0.1", localBindPort := 5000 }

/-- A sample upstream with no usable bind port. -/
def ucInvalid : UpstreamConfig :=
  { destinationName := "cache", destinationType := "service",
    localBindAddress := "127.0.0.1", localBindPort := 0 }

/-- A sample public-listener configuration. -/
def plSample : PublicListenerConfig :=
  { bindAddress := "0.0.0.0", bindPort := 8080 }

/-- A sample snapshot with one valid and one invalid upstream. -/
def cfgSample : Config :=
  { proxyID := "proxy-1", proxiedServiceID := "web", publicListener := plSample,
    upstreams := [ucValid, ucInvalid] }

/-- The identity service the sample environment builds for `cfgSample`. -/
def svcWeb : ConnectService := { serviceID := "web" }

/-- A sample dev-mode certificate-file service. -/
def svcDev : ConnectService := { serviceID := "dev" }

/-- An environment where identity-service construction succeeds. -/
def envOk : Env :=
  { newService := fun id => Except.ok { serviceID := id } }

/-- An environment where identity-service construction fails. -/
def envFail : Env :=
  { newService := fun _ => Except.error "identity construction failed" }

/-- A freshly constructed production proxy: no snapshot applied yet. -/
def pFresh : Proxy := New "proxy-1"

/-- A proxy that has already applied `cfgSample`. -/
def pApplied : Proxy := { pFresh with localCfg := some cfgSample }

/-! ## Unfolding lemmas for the loop -/

/-- A snapshot arriving after the first one: only the debug log and the
upstream loop run, and the snapshot is stored. -/
theorem applySnapshot_of_localCfg_some (env : Env) (p : Proxy) (c c0 : Config)
    (h : p.localCfg = some c0) :
    p.applySnapshot env c =
      (StepRes.next { p with localCfg := some c },
       ProxyAction.logDebugNewConfig :: processUpstreams p c.upstreams) := by
  unfold Proxy.applySnapshot
  rw [h]

/-- First snapshot, identity-service construction fails. -/
theorem applySnapshot_of_newService_error (env : Env) (p : Proxy) (c : Config) (e : String)
    (h1 : p.localCfg = none)
    (h2 : env.newService c.proxiedServiceID = Except.error e) :
    p.applySnapshot env c =
      (StepRes.fatal p e,
       [ProxyAction.logDebugNewConfig, ProxyAction.newServiceCall c.proxiedServiceID]) := by
  unfold Proxy.applySnapshot
  rw [h1, h2]

/-- First snapshot, identity-service construction succeeds. -/
theorem applySnapshot_of_newService_ok (env : Env) (p : Proxy) (c : Config)
    (svc : ConnectService)
    (h1 : p.localCfg = none)
    (h2 : env.newService c.proxiedServiceID = Except.ok svc) :
    p.applySnapshot env c =
      (StepRes.next { p with service := some svc, localCfg := some c.withPublicDefaults },
       [ProxyAction.logDebugNewConfig, ProxyAction.newServiceCall c.proxiedServiceID,
        ProxyAction.spawnReadyLogger,
        ProxyAction.logListenerStarting "public listener"
          (NewPublicListener svc c.withPublicDefaults.publicListener),
        ProxyAction.spawnServeThread "public listener"
          (NewPublicListener svc c.withPublicDefaults.publicListener),
        ProxyAction.spawnStopWatcher "public listener"
          (NewPublicListener svc c.withPublicDefaults.publicListener)] ++
       processUpstreams { p with service := some svc } c.upstreams) := by
  unfold Proxy.applySnapshot
  rw [h1, h2]
  rfl

/-- `Serve` on a snapshot whose processing continues the loop. -/
theorem Serve_snapshot_next (env : Env) (p : Proxy) (c : Config) (rest : List Event)
    (p2 : Proxy) (acts : List ProxyAction)
    (h : p.applySnapshot env c = (StepRes.next p2, acts)) :
    Proxy.Serve env p (Event.snapshot c :: rest) =
      ⟨(Proxy.Serve env p2 rest).outcome, (Proxy.Serve env p2 rest).state,
       acts ++ (Proxy.Serve env p2 rest).acts⟩ := by
  simp only [Proxy.Serve, h]

/-- `Serve` on a snapshot whose processing is fatal. -/
theorem Serve_snapshot_fatal (env : Env) (p : Proxy) (c : Config) (rest : List Event)
    (p2 : Proxy) (e : String) (acts : List ProxyAction)
    (h : p.applySnapshot env c = (StepRes.fatal p2 e, acts)) :
    Proxy.Serve env p (Event.snapshot c :: rest) =
      ⟨ServeOutcome.retErr e, p2, acts⟩ := by
  simp only [Proxy.Serve, h]

/-- The upstream loop distributes over list append. -/
theorem processUpstreams_append (p : Proxy) (xs ys : List UpstreamConfig) :
    processUpstreams p (xs ++ ys) = processUpstreams p xs ++ processUpstreams p ys := by
  induction xs with
  | nil => simp [processUpstreams]
  | cons uc rest ih => simp [processUpstreams, ih]

/-! ## Serve-spawn and stop-watcher bookkeeping -/

/-- `startListener` spawns serve threads and stop watchers in matched pairs. -/
theorem startListener_balanced (p : Proxy) (n : String) (l l2 : Listener) :
    ((p.startListener n l).2).countP (isServeSpawn l2)
      = ((p.startListener n l).2).countP (isWatcherSpawn l2) := by
  by_cases h : l = l2 <;>
    simp [Proxy.startListener, isServeSpawn, isWatcherSpawn, List.countP_cons, h]

/-- One upstream-loop iteration spawns serve threads and stop watchers in
matched pairs. -/
theorem processUpstream_balanced (p : Proxy) (uc : UpstreamConfig) (l2 : Listener) :
    (processUpstream p uc).countP (isServeSpawn l2)
      = (processUpstream p uc).countP (isWatcherSpawn l2) := by
  by_cases h : uc.localBindPort < 1 <;>
    simp [processUpstream, UpstreamConfig.applyDefaults, Proxy.startListener, h,
      isServeSpawn, isWatcherSpawn, List.countP_cons]

/-- The whole upstream loop spawns serve threads and stop watchers in matched
pairs. -/
theorem processUpstreams_balanced (p : Proxy) (ucs : List UpstreamConfig) (l2 : Listener) :
    (processUpstreams p ucs).countP (isServeSpawn l2)
      = (processUpstreams p ucs).countP (isWatcherSpawn l2) := by
  induction ucs with
  | nil => simp [processUpstreams]
  | cons uc rest ih =>
    simp [processUpstreams, List.countP_append, ih, processUpstream_balanced]

/-- Processing one snapshot spawns serve threads and stop watchers in matched
pairs. -/
theorem applySnapshot_balanced (env : Env) (p : Proxy) (c : Config) (l2 : Listener) :
    ((p.applySnapshot env c).2).countP (isServeSpawn l2)
      = ((p.applySnapshot env c).2).countP (isWatcherSpawn l2) := by
  cases h : p.localCfg with
  | some c0 =>
    rw [applySnapshot_of_localCfg_some env p c c0 h]
    simp [isServeSpawn, isWatcherSpawn, List.countP_cons, processUpstreams_balanced]
  | none =>
    cases h2 : env.newService c.proxiedServiceID with
    | error e =>
      rw [applySnapshot_of_newService_error env p c e h h2]
      simp [isServeSpawn, isWatcherSpawn, List.countP_cons]
    | ok svc =>
      rw [applySnapshot_of_newService_ok env p c svc h h2]
      by_cases hl : NewPublicListener svc c.withPublicDefaults.publicListener = l2 <;>
        simp [isServeSpawn, isWatcherSpawn, List.countP_cons, List.countP_append, hl,
          processUpstreams_balanced]

/-- Over a whole run of `Serve`, serve threads and stop watchers are spawned
in matched pairs. -/
theorem Serve_balanced (env : Env) (l2 : Listener) :
    ∀ (evs : List Event) (p : Proxy),
      ((Proxy.Serve env p evs).acts).countP (isServeSpawn l2)
        = ((Proxy.Serve env p evs).acts).countP (isWatcherSpawn l2)
  | [], p => by simp [Proxy.Serve]
  | Event.stop :: rest, p => by simp [Proxy.Serve]
  | Event.snapshot c :: rest, p => by
    have hb := applySnapshot_balanced env p c l2
    rcases h : p.applySnapshot env c with ⟨step, acts⟩
    rw [h] at hb
    cases step with
    | next p2 =>
      have ih := Serve_balanced env l2 rest p2
      rw [Serve_snapshot_next env p c rest p2 acts h]
      simp [List.countP_append, hb, ih]
    | fatal p2 e =>
      rw [Serve_snapshot_fatal env p c rest p2 e acts h]
      exact hb

/-- The closes performed at shutdown are exactly one per spawned stop
watcher. -/
theorem closesOnStop_countP (l2 : Listener) :
    ∀ acts : List ProxyAction,
      (closesOnStop acts).countP (isCloseOf l2) = acts.countP (isWatcherSpawn l2)
  | [] => by simp [closesOnStop]
  | a :: rest => by
    have ih := closesOnStop_countP l2 rest
    cases a <;>
      simp [closesOnStop, stopWatcherBody, isCloseOf, isWatcherSpawn, List.countP_cons, ih]

/-- `processUpstream` reads nothing from the proxy state (the resolver and
listener constructors it feeds are opaque), so any two states process one
upstream alike. -/
theorem processUpstream_proxy_irrel (p q : Proxy) (uc : UpstreamConfig) :
    processUpstream p uc = processUpstream q uc := rfl

/-- The upstream loop likewise does not depend on the proxy state. -/
theorem processUpstreams_proxy_irrel (p q : Proxy) :
    ∀ ucs : List UpstreamConfig, processUpstreams p ucs = processUpstreams q ucs
  | [] => rfl
  | uc :: rest => by
    simp [processUpstreams, processUpstream_proxy_irrel p q uc,
      processUpstreams_proxy_irrel p q rest]

/-! ## The claims -/

/-- C1: if identity-service construction fails while processing the first
configuration snapshot (no config applied yet), `Serve` returns that error
immediately, the loop never runs again (the result does not depend on the
remaining events), and no listener — public or upstream — is ever started. -/
theorem identity_failure_on_first_snapshot_is_fatal
    (env : Env) (p : Proxy) (c : Config) (rest : List Event) (e : String)
    (h1 : p.localCfg = none)
    (h2 : env.newService c.proxiedServiceID = Except.error e) :
    Proxy.Serve env p (Event.snapshot c :: rest) =
      ⟨ServeOutcome.retErr e, p,
       [ProxyAction.logDebugNewConfig, ProxyAction.newServiceCall c.proxiedServiceID]⟩ ∧
    (∀ n l, ProxyAction.spawnServeThread n l ∉
        (Proxy.Serve env p (Event.snapshot c :: rest)).acts) ∧
    (∀ n l, ProxyAction.logListenerStarting n l ∉
        (Proxy.Serve env p (Event.snapshot c :: rest)).acts) := by
  have h := applySnapshot_of_newService_error env p c e h1 h2
  have hs := Serve_snapshot_fatal env p c rest p e _ h
  refine ⟨hs, ?_, ?_⟩ <;> intro n l <;> rw [hs] <;> simp

/-- Witness for C1 at a concrete failing environment. -/
theorem identity_failure_on_first_snapshot_is_fatal_witness :
    pFresh.localCfg = none ∧
    Proxy.Serve envFail pFresh [Event.snapshot cfgSample] =
      ⟨ServeOutcome.retErr "identity construction failed", pFresh,
       [ProxyAction.logDebugNewConfig, ProxyAction.newServiceCall "web"]⟩ :=
  ⟨rfl,
   (identity_failure_on_first_snapshot_is_fatal envFail pFresh cfgSample []
      "identity construction failed" rfl rfl).1⟩

/-- C2: `startListener` returns `nil` for every name and listener after
recording its two spawned threads of execution, and errors from the spawned
listener's `Serve` are turned into log entries only, never surfaced to the
caller. -/
theorem startListener_returns_nil (p : Proxy) (name : String) (l : Listener) :
    (p.startListener name l).1 = none ∧
    (p.startListener name l).2 =
      [ProxyAction.logListenerStarting name l,
       ProxyAction.spawnServeThread name l,
       ProxyAction.spawnStopWatcher name l] ∧
    (∀ e, serveThreadBody name (some e) = [ServeThreadLog.stoppedWithError name e]) ∧
    serveThreadBody name none = [ServeThreadLog.stoppedNormally name] :=
  ⟨rfl, rfl, fun _ => rfl, rfl⟩

/-- C3: the first-snapshot branch checks the public-listener start result;
a non-nil result makes the step fatal with no further actions (the upstream
list is not processed), and a fatal step makes `Serve` return that error at
once. -/
theorem public_listener_start_failure_is_fatal
    (p : Proxy) (c : Config) (e : String) :
    p.afterPublicStart c (some e) = (StepRes.fatal p e, []) ∧
    (∀ (env : Env) (p0 p2 : Proxy) (c0 : Config) (rest : List Event)
       (e2 : String) (acts : List ProxyAction),
       p0.applySnapshot env c0 = (StepRes.fatal p2 e2, acts) →
       Proxy.Serve env p0 (Event.snapshot c0 :: rest) =
         ⟨ServeOutcome.retErr e2, p2, acts⟩) :=
  ⟨rfl, fun env p0 p2 c0 rest e2 acts h =>
    Serve_snapshot_fatal env p0 c0 rest p2 e2 acts h⟩

/-- Witness for C3: the error is propagated unchanged with no upstream
actions, at a concrete state and error. -/
theorem public_listener_start_failure_is_fatal_witness :
    pFresh.afterPublicStart cfgSample (some "bind failed") =
      (StepRes.fatal pFresh "bind failed", []) ∧
    Proxy.Serve envFail pFresh [Event.snapshot cfgSample] =
      ⟨ServeOutcome.retErr "identity construction failed", pFresh,
       [ProxyAction.logDebugNewConfig, ProxyAction.newServiceCall "web"]⟩ :=
  ⟨(public_listener_start_failure_is_fatal pFresh cfgSample "bind failed").1,
   (public_listener_start_failure_is_fatal pFresh cfgSample "bind failed").2
     envFail pFresh pFresh cfgSample [] "identity construction failed"
     [ProxyAction.logDebugNewConfig, ProxyAction.newServiceCall "web"] rfl⟩

/-- C6: whenever `Serve` observes the stop signal, it returns `nil`: stopping
is a successful terminal outcome, never an error. -/
theorem stop_signal_returns_nil (env : Env) (p : Proxy) (rest : List Event) :
    Proxy.Serve env p (Event.stop :: rest) = ⟨ServeOutcome.retNil, p, []⟩ := rfl

/-- C4: an upstream whose `localBindPort` is below 1 is reported and skipped:
no listener is constructed or started for it, the loop still processes the
surrounding entries, and the condition is never fatal — snapshot processing
continues to the next loop iteration in every non-identity-failure case. -/
theorem invalid_upstream_reported_and_skipped
    (p : Proxy) (uc : UpstreamConfig) (pre post : List UpstreamConfig)
    (h : uc.localBindPort < 1) :
    processUpstream p uc =
      [ProxyAction.logUpstreamNoBindPort
        ({ uc.applyDefaults with resolverBound := true } : UpstreamConfig).identityString] ∧
    (∀ n l, ProxyAction.spawnServeThread n l ∉ processUpstream p uc) ∧
    processUpstreams p (pre ++ uc :: post) =
      processUpstreams p pre ++ processUpstream p uc ++ processUpstreams p post ∧
    (∀ (env : Env) (q : Proxy) (c0 c : Config), q.localCfg = some c0 →
       (q.applySnapshot env c).1 = StepRes.next { q with localCfg := some c }) ∧
    (∀ (env : Env) (q : Proxy) (c : Config) (svc : ConnectService),
       q.localCfg = none → env.newService c.proxiedServiceID = Except.ok svc →
       (q.applySnapshot env c).1 =
         StepRes.next { q with service := some svc, localCfg := some c.withPublicDefaults }) := by
  refine ⟨?_, ?_, ?_, ?_, ?_⟩
  · simp [processUpstream, UpstreamConfig.applyDefaults, h]
  · intro n l
    simp [processUpstream, UpstreamConfig.applyDefaults, h]
  · simp [processUpstreams_append, processUpstreams, List.append_assoc]
  · intro env q c0 c hq
    rw [applySnapshot_of_localCfg_some env q c c0 hq]
  · intro env q c svc hq hsvc
    rw [applySnapshot_of_newService_ok env q c svc hq hsvc]

/-- Witness for C4 on a concrete upstream with bind port 0, between a valid
entry and the end of the list. -/
theorem invalid_upstream_reported_and_skipped_witness :
    ucInvalid.localBindPort < 1 ∧
    processUpstream pFresh ucInvalid =
      [ProxyAction.logUpstreamNoBindPort
        ({ ucInvalid.applyDefaults with resolverBound := true } : UpstreamConfig).identityString] ∧
    processUpstreams pFresh ([ucValid] ++ ucInvalid :: []) =
      processUpstreams pFresh [ucValid] ++ processUpstream pFresh ucInvalid ++
        processUpstreams pFresh [] :=
  ⟨by decide,
   (invalid_upstream_reported_and_skipped pFresh ucInvalid [ucValid] [] (by decide)).1,
   (invalid_upstream_reported_and_skipped pFresh ucInvalid [ucValid] [] (by decide)).2.2.1⟩

/-- C5: every upstream with `localBindPort ≥ 1` gets exactly one
listener-start attempt per snapshot it appears in, the loop runs entry by
entry over the full list with no deduplication, and re-delivering the same
snapshot doubles the start attempts. -/
theorem one_start_attempt_per_upstream_per_snapshot
    (env : Env) (p : Proxy) (c0 c : Config)
    (h : p.localCfg = some c0) :
    (∀ (q : Proxy) (uc : UpstreamConfig), 1 ≤ uc.localBindPort →
       (processUpstream q uc).countP isStartAttempt = 1) ∧
    (∀ (q : Proxy) (pre post : List UpstreamConfig) (uc : UpstreamConfig),
       processUpstreams q (pre ++ uc :: post) =
         processUpstreams q pre ++ processUpstream q uc ++ processUpstreams q post) ∧
    ((Proxy.Serve env p [Event.snapshot c, Event.snapshot c]).acts.countP isStartAttempt =
       2 * (Proxy.Serve env p [Event.snapshot c]).acts.countP isStartAttempt) := by
  refine ⟨?_, ?_, ?_⟩
  · intro q uc h1
    simp [processUpstream, UpstreamConfig.applyDefaults, Proxy.startListener,
      isStartAttempt, List.countP_cons, not_lt.mpr h1]
  · intro q pre post uc
    simp [processUpstreams_append, processUpstreams, List.append_assoc]
  · have h2 : ({ p with localCfg := some c } : Proxy).localCfg = some c := rfl
    have A1 := applySnapshot_of_localCfg_some env p c c0 h
    have A2 := applySnapshot_of_localCfg_some env { p with localCfg := some c } c c h2
    rw [Serve_snapshot_next env p c [Event.snapshot c] _ _ A1,
      Serve_snapshot_next env { p with localCfg := some c } c [] _ _ A2,
      Serve_snapshot_next env p c [] _ _ A1,
      processUpstreams_proxy_irrel { p with localCfg := some c } p c.upstreams]
    simp [Proxy.Serve, List.countP_append, List.countP_cons, isStartAttempt]
    ring

/-- Witness for C5 on a concrete already-initialized proxy re-receiving the
same snapshot. -/
theorem one_start_attempt_per_upstream_per_snapshot_witness :
    pApplied.localCfg = some cfgSample ∧
    ((Proxy.Serve envOk pApplied
        [Event.snapshot cfgSample, Event.snapshot cfgSample]).acts.countP isStartAttempt =
      2 * (Proxy.Serve envOk pApplied [Event.snapshot cfgSample]).acts.countP isStartAttempt) :=
  ⟨rfl,
   (one_start_attempt_per_upstream_per_snapshot envOk pApplied cfgSample cfgSample rfl).2.2⟩

/-- C7: identity-service construction, the readiness-logging thread and the
public-listener start run only when no config has been applied yet (the
first snapshot); every later snapshot emits only the debug log and the
upstream-loop actions; and in both cases the processed snapshot becomes the
stored current config. -/
theorem initialization_only_on_first_snapshot
    (env : Env) (p : Proxy) (c : Config) :
    (∀ c0, p.localCfg = some c0 →
       p.applySnapshot env c =
         (StepRes.next { p with localCfg := some c },
          ProxyAction.logDebugNewConfig :: processUpstreams p c.upstreams)) ∧
    (∀ svc, p.localCfg = none → env.newService c.proxiedServiceID = Except.ok svc →
       p.applySnapshot env c =
         (StepRes.next { p with service := some svc, localCfg := some c.withPublicDefaults },
          [ProxyAction.logDebugNewConfig, ProxyAction.newServiceCall c.proxiedServiceID,
           ProxyAction.spawnReadyLogger,
           ProxyAction.logListenerStarting "public listener"
             (NewPublicListener svc c.withPublicDefaults.publicListener),
           ProxyAction.spawnServeThread "public listener"
             (NewPublicListener svc c.withPublicDefaults.publicListener),
           ProxyAction.spawnStopWatcher "public listener"
             (NewPublicListener svc c.withPublicDefaults.publicListener)] ++
          processUpstreams { p with service := some svc } c.upstreams)) :=
  ⟨fun c0 h => applySnapshot_of_localCfg_some env p c c0 h,
   fun svc h1 h2 => applySnapshot_of_newService_ok env p c svc h1 h2⟩

/-- Witness for C7: a subsequent snapshot skips initialization, a first
snapshot performs it, on concrete states. -/
theorem initialization_only_on_first_snapshot_witness :
    pApplied.applySnapshot envOk cfgSample =
      (StepRes.next { pApplied with localCfg := some cfgSample },
       ProxyAction.logDebugNewConfig :: processUpstreams pApplied cfgSample.upstreams) ∧
    pFresh.applySnapshot envOk cfgSample =
      (StepRes.next { pFresh with service := some svcWeb,
                                  localCfg := some cfgSample.withPublicDefaults },
       [ProxyAction.logDebugNewConfig, ProxyAction.newServiceCall "web",
        ProxyAction.spawnReadyLogger,
        ProxyAction.logListenerStarting "public listener"
          (NewPublicListener svcWeb cfgSample.withPublicDefaults.publicListener),
        ProxyAction.spawnServeThread "public listener"
          (NewPublicListener svcWeb cfgSample.withPublicDefaults.publicListener),
        ProxyAction.spawnStopWatcher "public listener"
          (NewPublicListener svcWeb cfgSample.withPublicDefaults.publicListener)] ++
       processUpstreams { pFresh with service := some svcWeb }
         cfgSample.upstreams) :=
  ⟨(initialization_only_on_first_snapshot envOk pApplied cfgSample).1 cfgSample rfl,
   (initialization_only_on_first_snapshot envOk pFresh cfgSample).2 svcWeb
     rfl rfl⟩

/-- C8: `Close` fires the stop signal exactly once; the identity service is
closed, synchronously after the signal, only when one exists; a proxy built
via `New` with no snapshot ever applied has no identity service, so its
`Close` fires only the signal — and the fired signal still makes `Serve`
return. -/
theorem close_fires_stop_once_then_closes_service (p : Proxy) (pid : String) :
    (p.Close).countP isFireStop = 1 ∧
    (p.service = none → p.Close = [CloseAction.fireStopSignal]) ∧
    (∀ svc, p.service = some svc →
       p.Close = [CloseAction.fireStopSignal, CloseAction.closeService svc]) ∧
    (New pid).service = none ∧
    (New pid).Close = [CloseAction.fireStopSignal] ∧
    (∀ (env : Env) (q : Proxy) (rest : List Event),
       (Proxy.Serve env q (Event.stop :: rest)).outcome = ServeOutcome.retNil) := by
  refine ⟨?_, ?_, ?_, rfl, rfl, fun env q rest => rfl⟩
  · cases h : p.service <;> simp [Proxy.Close, isFireStop, List.countP_cons, h]
  · intro h
    simp [Proxy.Close, h]
  · intro svc h
    simp [Proxy.Close, h]

/-- Witness for C8 on a proxy built via `New` with no snapshot applied. -/
theorem close_fires_stop_once_then_closes_service_witness :
    (pFresh.Close).countP isFireStop = 1 ∧
    pFresh.Close = [CloseAction.fireStopSignal] :=
  ⟨(close_fires_stop_once_then_closes_service pFresh "proxy-1").1,
   (close_fires_stop_once_then_closes_service pFresh "proxy-1").2.1 rfl⟩

/-- C9: for every listener handed to `startListener` exactly one stop
watcher is spawned, a stop watcher closes its listener exactly once when the
stop signal fires, and over any run of `Serve` the closes performed at stop
match the started listeners one for one. -/
theorem stop_closes_every_started_listener
    (env : Env) (p : Proxy) (evs : List Event) (l : Listener) :
    stopWatcherBody l = [ListenerEffect.closeListener l] ∧
    (∀ (q : Proxy) (n : String),
       ((q.startListener n l).2).countP (isWatcherSpawn l) = 1) ∧
    (closesOnStop (Proxy.Serve env p evs).acts).countP (isCloseOf l)
      = (Proxy.Serve env p evs).acts.countP (isServeSpawn l) := by
  refine ⟨rfl, ?_, ?_⟩
  · intro q n
    simp [Proxy.startListener, isWatcherSpawn, List.countP_cons]
  · exact (closesOnStop_countP l _).trans (Serve_balanced env l evs p).symm

/-- C10: on the first snapshot `Serve` unconditionally constructs a fresh
identity service and overwrites `p.service` with it — even when a service
was already set at construction, so a `NewFromConfigFile` proxy has its
dev-mode certificate-file service replaced. -/
theorem first_snapshot_overwrites_service
    (env : Env) (fileCfg : Config) (devSvc newSvc : ConnectService) (c : Config)
    (h : env.newService c.proxiedServiceID = Except.ok newSvc) :
    (NewFromConfigFile fileCfg devSvc).service = some devSvc ∧
    (((NewFromConfigFile fileCfg devSvc).applySnapshot env c).1).state.service = some newSvc ∧
    (∀ q : Proxy, q.localCfg = none →
       ((q.applySnapshot env c).1).state.service = some newSvc) := by
  have key : ∀ q : Proxy, q.localCfg = none →
      ((q.applySnapshot env c).1).state.service = some newSvc := by
    intro q hq
    rw [applySnapshot_of_newService_ok env q c newSvc hq h]
    rfl
  exact ⟨rfl, key (NewFromConfigFile fileCfg devSvc) rfl, key⟩

/-- Witness for C10: a dev-mode proxy whose certificate-file service is
replaced by the service constructed from the first snapshot. -/
theorem first_snapshot_overwrites_service_witness :
    (NewFromConfigFile cfgSample svcDev).service =
      some svcDev ∧
    (((NewFromConfigFile cfgSample svcDev).applySnapshot envOk
        cfgSample).1).state.service = some svcWeb :=
  ⟨(first_snapshot_overwrites_service envOk cfgSample svcDev
      svcWeb cfgSample rfl).1,
   (first_snapshot_overwrites_service envOk cfgSample svcDev
      svcWeb cfgSample rfl).2.1⟩
